import Mathlib

/-
  Verification development for the flight-deal scanner.

  Shallow embedding of the Python sources:
    scanner/models.py        (Flight, Deal)
    scanner/config.py        (ScannerConfig)
    scanner/storage.py       (Storage: price_history ledger, notified_deals table)
    scanner/deal_detector.py (DealDetector.detect_deals)
    scanner/runner.py        (ScannerRunner._generate_date_pairs, scan_cycle)

  Prices and money amounts are modelled as rationals (Python floats at the
  precisions exercised here behave like exact decimals for the comparisons
  involved); calendar dates carry (year, month, day); the day-offset arithmetic
  of the date-pair generator uses absolute day numbers (Nat).
-/

namespace FlightScanner

/-- Calendar date, as used by `Flight.departure_date` / `return_date` and by the
`departure_month` / `departure_year` columns of the ledger. -/
structure Date where
  year : Nat
  month : Nat
  day : Nat
deriving DecidableEq

/-- Embeds `scanner/models.py` `Flight`: one observed offer, with the same
fields and defaults as the Python dataclass. -/
structure Flight where
  origin : String
  destination : String
  departure_date : Date
  price : ℚ
  airline : String
  departure_time : Option String := none
  arrival_time : Option String := none
  return_date : Option Date := none
  return_departure_time : Option String := none
  return_arrival_time : Option String := none
  booking_url : Option String := none
  currency : String := "EUR"
  has_stopover : Bool := false
  stopovers : Option String := none
deriving DecidableEq

/-- Embeds `Flight.is_round_trip`: true exactly when `return_date` is set. -/
def Flight.is_round_trip (f : Flight) : Bool :=
  f.return_date.isSome

/-- The content on which `Flight.to_hash` is computed. The Python code builds
the string `f"{origin}_{destination}_{departure_date}_{return_date_str}_{price}_{airline}"`
(with `return_date_str = return_date.isoformat() if return_date else "oneway"`)
and returns its MD5 digest. The digest of that serialised key is modelled by
the key itself: `return_field = none` plays the role of the literal `"oneway"`. -/
structure FlightKey where
  origin : String
  destination : String
  departure_date : Date
  return_field : Option Date
  price : ℚ
  airline : String
deriving DecidableEq

/-- Embeds `Flight.to_hash`: the fingerprint is a function of exactly
`(origin, destination, departure_date, return_date | "oneway", price, airline)`. -/
def Flight.to_hash (f : Flight) : FlightKey :=
  { origin := f.origin
    destination := f.destination
    departure_date := f.departure_date
    return_field := f.return_date
    price := f.price
    airline := f.airline }

/-- Embeds `scanner/models.py` `Deal` (plain record; the `__post_init__`
assertions are the separate predicate `Deal.post_init_ok`). -/
structure Deal where
  flight : Flight
  usual_price : ℚ
  discount_percentage : ℚ
  observations_count : Nat
deriving DecidableEq

/-- The literal `asia_codes` set of `Deal._is_asia_destination`
(`scanner/models.py`), transcribed element by element. -/
def asia_codes : List String :=
  ["BKK", "SIN", "HKG", "NRT", "HND", "ICN", "PEK", "PVG", "CAN", "KUL",
   "MNL", "JKT", "HAN", "SGN", "BOM", "DEL", "BLR", "MAA", "DPS", "CGK",
   "TPE", "KHH", "OKA", "FUK", "KIX", "NGO", "CTS", "GMP", "PUS", "CJU",
   "BJS", "SHA", "CAN", "CTU", "XIY", "KMG", "XMN", "SZX", "DLC", "TSN",
   "CCU", "HYD", "COK", "CCJ", "TRV", "GAU", "AMD", "PNQ", "IXC", "LKO",
   "VNS", "PAT", "RPR", "IDR", "JAI", "UDR", "BDQ", "RAJ", "BHO", "GAY",
   "BBI", "VTZ", "IXZ", "IXE", "HBX", "IXU", "NAG", "JLR", "RJA", "TIR",
   "VGA", "BZA", "CJB", "IXM", "IXJ", "IXL", "IXP", "IXR", "IXS", "IXW",
   "JDH", "JGB", "JLR", "JRH", "JSA", "JSH", "JSR", "JTR", "JUB", "JUI"]

/-- Embeds `Deal._is_asia_destination`: membership of the flight's destination
in the hardcoded `asia_codes` set. -/
def Deal.is_asia_destination (d : Deal) : Bool :=
  decide (d.flight.destination ∈ asia_codes)

/-- Embeds the `Deal.__post_init__` assertions: `discount_percentage >= 50.0`,
and unless the destination is in the hardcoded Asia set with a stopover,
`flight.price <= 200.0`. -/
def Deal.post_init_ok (d : Deal) : Bool :=
  decide (50 ≤ d.discount_percentage) &&
    (d.is_asia_destination && d.flight.has_stopover
      || decide (d.flight.price ≤ 200))

/-- Constructing a Python `Deal(...)` runs `__post_init__`, which raises an
`AssertionError` (modelled as `none`) instead of yielding a value whenever the
assertions fail. -/
def Deal.make (flight : Flight) (usual_price discount_percentage : ℚ)
    (observations_count : Nat) : Option Deal :=
  let d : Deal :=
    { flight := flight
      usual_price := usual_price
      discount_percentage := discount_percentage
      observations_count := observations_count }
  if d.post_init_ok then some d else none

/-- Embeds `scanner/config.py` `ScannerConfig`, restricted to the fields the
verified components consume. Day counts and steps are non-negative integers.

`asia_destinations` — Modelled from the spec: `deal_detector.py` and
`runner.py` read `self.config.asia_destinations`, but the `ScannerConfig`
dataclass in `src/scanner/config.py` does not declare that attribute; per the
spec the exempt long-haul set "is a policy input … treat it as injectable
configuration", so it is modelled as a configured list of IATA codes. -/
structure ScannerConfig where
  min_days_from_now : Nat := 7
  max_days_from_now : Nat := 120
  min_stay_days : Nat := 3
  max_stay_days : Nat := 30
  stay_days_step : Nat := 1
  date_step_days : Nat := 7
  max_price : ℚ := 200
  discount_threshold : ℚ := 1/2
  min_observations : Nat := 10
  asia_destinations : List String := []
deriving DecidableEq

/-- One row of the `price_history` table (`Storage.init_db`), as inserted by
`Storage.store_price`. The SQL schema's `id` / `created_at` columns play no
role in any query and are omitted. -/
structure PriceRow where
  origin : String
  destination : String
  departure_date : Date
  departure_month : Nat
  departure_year : Nat
  price : ℚ
  airline : String
  currency : String
deriving DecidableEq

/-- The row `Storage.store_price` inserts for a flight: date split into the
derived `departure_month` / `departure_year` columns. -/
def rowOfFlight (f : Flight) : PriceRow :=
  { origin := f.origin
    destination := f.destination
    departure_date := f.departure_date
    departure_month := f.departure_date.month
    departure_year := f.departure_date.year
    price := f.price
    airline := f.airline
    currency := f.currency }

/-- The `UNIQUE(origin, destination, departure_date, price, airline)`
constraint of `price_history`. -/
def sameKey (a b : PriceRow) : Bool :=
  decide (a.origin = b.origin ∧ a.destination = b.destination ∧
    a.departure_date = b.departure_date ∧ a.price = b.price ∧ a.airline = b.airline)

/-- Embeds `Storage.store_price`: `INSERT OR IGNORE` under the uniqueness
constraint — appends the flight's row unless a row with the same uniqueness
key is already present, in which case the ledger is unchanged. -/
def store_price (db : List PriceRow) (f : Flight) : List PriceRow :=
  if db.any (fun r => sameKey r (rowOfFlight f)) then db
  else db ++ [rowOfFlight f]

/-- The `WHERE` clause shared by `get_average_price`, `get_median_price` and
`get_observations_count`: match on route, and on month / year only when those
optional filters are given. -/
def rowMatches (origin destination : String) (month year : Option Nat)
    (r : PriceRow) : Bool :=
  decide (r.origin = origin) && decide (r.destination = destination) &&
    (match month with
     | none => true
     | some m => decide (r.departure_month = m)) &&
    (match year with
     | none => true
     | some y => decide (r.departure_year = y))

/-- Embeds `Storage.get_observations_count`: `SELECT COUNT(*)` over the
matching rows. -/
def get_observations_count (db : List PriceRow) (origin destination : String)
    (month year : Option Nat) : Nat :=
  (db.filter (rowMatches origin destination month year)).length

/-- Comparator realising `ORDER BY price`. -/
def priceLe (a b : ℚ) : Bool :=
  decide (a ≤ b)

/-- Embeds `Storage.get_median_price`: select the matching prices ordered
ascending; `None` when no row matches; otherwise the middle price for an odd
count and the mean of the two central prices for an even count. -/
def get_median_price (db : List PriceRow) (origin destination : String)
    (month year : Option Nat) : Option ℚ :=
  let rows := db.filter (rowMatches origin destination month year)
  if rows.isEmpty then none
  else
    let prices := (rows.map (·.price)).mergeSort priceLe
    let n := prices.length
    if n % 2 = 0 then some ((prices.getD (n / 2 - 1) 0 + prices.getD (n / 2) 0) / 2)
    else some (prices.getD (n / 2) 0)

/-- One row of the `notified_deals` table (`flight_hash` is its
`PRIMARY KEY`; `notified_at` plays no role in any query and is omitted). -/
structure NotifiedRow where
  flight_hash : FlightKey
  origin : String
  destination : String
  departure_date : Date
  price : ℚ
  usual_price : ℚ
  discount_percentage : ℚ
deriving DecidableEq

/-- Embeds `Storage.is_deal_notified`: the `SELECT` inside the `try` block runs
against the database connection; when the read raises, the `except` arm logs
and returns `False`. The connection is modelled as `Except`: `.ok rows` is the
table contents, `.error e` a read that raises `e`. -/
def is_deal_notified (conn : Except String (List NotifiedRow))
    (flight_hash : FlightKey) : Bool :=
  match conn with
  | .ok rows => rows.any (fun r => decide (r.flight_hash = flight_hash))
  | .error _ => false

/-- Embeds `Storage.mark_deal_as_notified`: `INSERT OR REPLACE` keyed by
`flight_hash` — any row with the same hash is replaced by the new one. -/
def mark_deal_as_notified (db : List NotifiedRow) (f : Flight)
    (usual_price discount_percentage : ℚ) : List NotifiedRow :=
  let h := f.to_hash
  (db.filter fun r => !decide (r.flight_hash = h)) ++
    [{ flight_hash := h
       origin := f.origin
       destination := f.destination
       departure_date := f.departure_date
       price := f.price
       usual_price := usual_price
       discount_percentage := discount_percentage }]

/-- The `usual_price` lookup of the `detect_deals` loop: the median scoped to
the departure date's month and year, and when that is `None`, the unscoped
whole-route median. -/
def usual_price_of (db : List PriceRow) (f : Flight) : Option ℚ :=
  match get_median_price db f.origin f.destination
      (some f.departure_date.month) (some f.departure_date.year) with
  | none => get_median_price db f.origin f.destination none none
  | some v => some v

/-- The body of the `detect_deals` loop from the price-history gates onward
(`deal_detector.py` lines 55-106): observation-count gate, month/year-scoped
median with unscoped fallback, discount threshold, emission. -/
def detectAfterPriceGate (cfg : ScannerConfig) (db : List PriceRow)
    (f : Flight) : Option Deal :=
  let observations := get_observations_count db f.origin f.destination
    (some f.departure_date.month) (some f.departure_date.year)
  if observations < cfg.min_observations then none
  else
    match usual_price_of db f with
    | none => none
    | some usual =>
      let discount_percentage := (1 - f.price / usual) * 100
      if cfg.discount_threshold * 100 ≤ discount_percentage then
        some { flight := f
               usual_price := usual
               discount_percentage := discount_percentage
               observations_count := observations }
      else none

/-- The full per-flight body of the `detect_deals` loop: round-trip filter,
exemption test `destination ∈ config.asia_destinations ∧ has_stopover`,
price cap for non-exempt flights, then the history gates. -/
def detectOne (cfg : ScannerConfig) (db : List PriceRow) (f : Flight) :
    Option Deal :=
  if !f.is_round_trip then none
  else
    let is_asia_with_stopover :=
      decide (f.destination ∈ cfg.asia_destinations) && f.has_stopover
    if !is_asia_with_stopover && decide (cfg.max_price < f.price) then none
    else detectAfterPriceGate cfg db f

/-- Embeds `DealDetector.detect_deals`: the kept deals, in input order. -/
def detect_deals (cfg : ScannerConfig) (db : List PriceRow)
    (flights : List Flight) : List Deal :=
  flights.filterMap (detectOne cfg db)

/-- The per-deal body of the notification loop of `ScannerRunner.scan_cycle`
(`runner.py` lines 186-202): look up the flight's fingerprint in
`notified_deals` through the read connection `conn`; on a hit, skip; on a
miss, invoke the notifier and, only when it reports success, write the
`NotifiedRow`. Returns the updated table and whether this deal was counted as
newly notified. In normal operation `conn = .ok table`. -/
def scanCycleNotifyStep (conn : Except String (List NotifiedRow))
    (send : Deal → Bool) (table : List NotifiedRow) (deal : Deal) :
    List NotifiedRow × Bool :=
  let flight_hash := deal.flight.to_hash
  if is_deal_notified conn flight_hash then (table, false)
  else if send deal then
    (mark_deal_as_notified table deal.flight deal.usual_price
      deal.discount_percentage, true)
  else (table, false)

/-- The whole notification loop of `ScannerRunner.scan_cycle`: fold
`scanCycleNotifyStep` over the detected deals (each iteration reads the
then-current table), returning the final table and `notified_count`. -/
def scanCycleNotifyAll (send : Deal → Bool) (table : List NotifiedRow)
    (deals : List Deal) : List NotifiedRow × Nat :=
  deals.foldl
    (fun acc deal =>
      let step := scanCycleNotifyStep (.ok acc.1) send acc.1 deal
      (step.1, acc.2 + (if step.2 then 1 else 0)))
    (table, 0)

/-- Semantics of Python's `range(start, stop, step)` for a positive step,
unrolled recursively; `fuel` bounds the recursion and is always instantiated
large enough (`stop` suffices when `1 ≤ step`). -/
def pyRangeAux : Nat → Nat → Nat → Nat → List Nat
  | 0, _, _, _ => []
  | fuel + 1, start, stop, step =>
    if start < stop then start :: pyRangeAux fuel (start + step) stop step
    else []

/-- Python's `range(start, stop, step)` for `1 ≤ step`. -/
def pyRange (start stop step : Nat) : List Nat :=
  pyRangeAux stop start stop step

/-- The departure-date loop of `ScannerRunner._generate_date_pairs`: from
`current` while `current ≤ maxDeparture`, stepped by `date_step_days`; the
inner loop runs over `range(min_stay_days, min(max_stay_days + 1, 15),
stay_days_step)` and keeps `(current, current + stay)` when the return day
does not exceed `maxDeparture`. Dates are absolute day numbers. -/
def datePairsAux (cfg : ScannerConfig) (maxDeparture : Nat) :
    Nat → Nat → List (Nat × Nat)
  | 0, _ => []
  | fuel + 1, current =>
    if current ≤ maxDeparture then
      ((pyRange cfg.min_stay_days (min (cfg.max_stay_days + 1) 15)
          cfg.stay_days_step).filterMap fun stay =>
        if current + stay ≤ maxDeparture then some (current, current + stay)
        else none) ++
        datePairsAux cfg maxDeparture fuel (current + cfg.date_step_days)
    else []

/-- Embeds `ScannerRunner._generate_date_pairs`, with `today` an absolute day
number and `timedelta` addition on day numbers. -/
def generate_date_pairs (cfg : ScannerConfig) (today : Nat) :
    List (Nat × Nat) :=
  let maxDeparture := today + cfg.max_days_from_now
  datePairsAux cfg maxDeparture (maxDeparture + 1) (today + cfg.min_days_from_now)

/-! Concrete fixtures used to instantiate the theorems below. -/

/-- June 15, 2024 — the departure date used by the repository's own tests. -/
def dJun : Date := ⟨2024, 6, 15⟩

/-- June 22, 2024 — a return date one week later. -/
def dJunRet : Date := ⟨2024, 6, 22⟩

/-- July 15, 2024 — a departure date in a different month. -/
def dJul : Date := ⟨2024, 7, 15⟩

/-- A ledger row for a given route, date, price and airline. -/
def fixtureRow (o d : String) (dt : Date) (p : ℚ) (al : String) : PriceRow :=
  { origin := o
    destination := d
    departure_date := dt
    departure_month := dt.month
    departure_year := dt.year
    price := p
    airline := al
    currency := "EUR" }

/-- `n` ledger rows at the same price on one route/date, with distinct
airlines so that all rows respect the uniqueness constraint. -/
def historyAt (o d : String) (dt : Date) (p : ℚ) (n : Nat) : List PriceRow :=
  (List.range n).map fun i => fixtureRow o d dt p (toString i)

/-- A CDG→NYC round trip in June 2024 at price `p`. -/
def rtNyc (p : ℚ) : Flight :=
  { origin := "CDG"
    destination := "NYC"
    departure_date := dJun
    price := p
    airline := "AF"
    return_date := some dJunRet }

/-- Base flight for the fingerprint fixtures. -/
def flightA : Flight := rtNyc 100

/-- `flightA` with every field outside the fingerprint key changed. -/
def flightB : Flight :=
  { flightA with
    departure_time := some "08:00"
    arrival_time := some "11:00"
    return_departure_time := some "18:00"
    return_arrival_time := some "21:00"
    booking_url := some "https://example.test/x"
    currency := "USD"
    has_stopover := true
    stopovers := some "DXB" }

/-- `flightA` repriced. -/
def flightC : Flight := { flightA with price := 120 }

/-- `flightA` on another airline. -/
def flightD : Flight := { flightA with airline := "BA" }

/-! Helper lemmas about the ledger's uniqueness key. -/

/-- `sameKey` is reflexive. -/
theorem sameKey_refl (a : PriceRow) : sameKey a a = true := by
  simp [sameKey]

/-- `sameKey` is transitive. -/
theorem sameKey_trans {a b c : PriceRow} (h1 : sameKey a b = true)
    (h2 : sameKey b c = true) : sameKey a c = true := by
  simp only [sameKey, decide_eq_true_eq] at h1 h2 ⊢
  obtain ⟨e1, e2, e3, e4, e5⟩ := h1
  obtain ⟨g1, g2, g3, g4, g5⟩ := h2
  exact ⟨e1.trans g1, e2.trans g2, e3.trans g3, e4.trans g4, e5.trans g5⟩

/-! Helper lemmas about `priceLe` / `mergeSort`, and a stage-by-stage
characterisation of the `detect_deals` loop body. -/

/-- `priceLe` is transitive. -/
theorem priceLe_trans : ∀ a b c : ℚ, priceLe a b = true → priceLe b c = true →
    priceLe a c = true := by
  intro a b c hab hbc
  simp only [priceLe, decide_eq_true_eq] at hab hbc ⊢
  exact hab.trans hbc

/-- `priceLe` is total. -/
theorem priceLe_total : ∀ a b : ℚ, (priceLe a b || priceLe b a) = true := by
  intro a b
  simp only [priceLe, Bool.or_eq_true, decide_eq_true_eq]
  exact le_total a b

/-- Sorting by `priceLe` yields a `≤`-sorted list. -/
theorem mergeSort_priceLe_sorted (xs : List ℚ) :
    (xs.mergeSort priceLe).Sorted (· ≤ ·) := by
  have h := List.sorted_mergeSort priceLe_trans priceLe_total xs
  exact h.imp fun hab => of_decide_eq_true hab

/-- `get_median_price` answers `None` exactly on an empty result set. -/
theorem get_median_price_none_iff (db : List PriceRow) (o d : String)
    (month year : Option Nat) :
    get_median_price db o d month year = none ↔
      db.filter (rowMatches o d month year) = [] := by
  simp only [get_median_price]
  by_cases he : (db.filter (rowMatches o d month year)).isEmpty
  · rw [if_pos he]
    simp [List.isEmpty_iff.mp he]
  · rw [if_neg he]
    constructor
    · intro h
      split at h <;> exact Option.noConfusion h
    · intro h
      exact absurd (List.isEmpty_iff.mpr h) he

/-- `get_median_price` through any sorted permutation of the matching
prices: middle element for an odd count, mean of the two central elements for
an even count. -/
theorem get_median_price_eq_of_sorted (db : List PriceRow) (o d : String)
    (month year : Option Nat) (l : List ℚ)
    (hperm : l.Perm ((db.filter (rowMatches o d month year)).map (·.price)))
    (hsort : l.Sorted (· ≤ ·)) (hne : l ≠ []) :
    get_median_price db o d month year =
      some (if l.length % 2 = 0
        then (l.getD (l.length / 2 - 1) 0 + l.getD (l.length / 2) 0) / 2
        else l.getD (l.length / 2) 0) := by
  have hmeq : ((db.filter (rowMatches o d month year)).map (·.price)).mergeSort
      priceLe = l := by
    apply List.eq_of_perm_of_sorted ?_ (mergeSort_priceLe_sorted _) hsort
    exact (List.mergeSort_perm _ _).trans hperm.symm
  have he : (db.filter (rowMatches o d month year)).isEmpty = false := by
    rcases h : (db.filter (rowMatches o d month year)) with _ | ⟨r, rs⟩
    · exfalso
      rw [h] at hperm
      simp at hperm
      exact hne hperm
    · simp
  simp only [get_median_price, he, Bool.false_eq_true, if_false, hmeq]
  split <;> rfl

/-- When the month/year-scoped median resolves, `usual_price` is that value. -/
theorem usual_price_of_scoped (db : List PriceRow) (f : Flight) (m : ℚ)
    (h : get_median_price db f.origin f.destination
      (some f.departure_date.month) (some f.departure_date.year) = some m) :
    usual_price_of db f = some m := by
  simp [usual_price_of, h]

/-- When the month/year-scoped median is absent, `usual_price` is the
unscoped whole-route median. -/
theorem usual_price_of_unscoped (db : List PriceRow) (f : Flight)
    (h : get_median_price db f.origin f.destination
      (some f.departure_date.month) (some f.departure_date.year) = none) :
    usual_price_of db f = get_median_price db f.origin f.destination
      none none := by
  simp [usual_price_of, h]

/-- One-way flights are dropped by the `detect_deals` loop. -/
theorem detectOne_not_round_trip {cfg : ScannerConfig} {db : List PriceRow}
    {f : Flight} (h : f.is_round_trip = false) : detectOne cfg db f = none := by
  simp [detectOne, h]

/-- A non-exempt flight above the price cap is dropped by the `detect_deals`
loop. -/
theorem detectOne_price_gate {cfg : ScannerConfig} {db : List PriceRow}
    {f : Flight}
    (hex : (decide (f.destination ∈ cfg.asia_destinations) && f.has_stopover)
      = false)
    (hp : cfg.max_price < f.price) : detectOne cfg db f = none := by
  unfold detectOne
  by_cases hrt : f.is_round_trip
  · simp [hrt, hex, hp]
  · simp [Bool.not_eq_true] at hrt
    simp [hrt]

/-- A round-trip flight that is exempt, or within the price cap, reaches the
price-history gates of the loop. -/
theorem detectOne_pass_gate {cfg : ScannerConfig} {db : List PriceRow}
    {f : Flight} (hrt : f.is_round_trip = true)
    (h : (decide (f.destination ∈ cfg.asia_destinations) && f.has_stopover)
        = true
      ∨ ¬ cfg.max_price < f.price) :
    detectOne cfg db f = detectAfterPriceGate cfg db f := by
  unfold detectOne
  rcases h with h | h
  · simp [hrt, h]
  · simp [hrt, h]

/-- Too few observations: the flight is dropped at the history gate. -/
theorem detectAfterPriceGate_low_obs {cfg : ScannerConfig}
    {db : List PriceRow} {f : Flight}
    (h : get_observations_count db f.origin f.destination
      (some f.departure_date.month) (some f.departure_date.year)
        < cfg.min_observations) :
    detectAfterPriceGate cfg db f = none := by
  simp [detectAfterPriceGate, h]

/-- No usable median (scoped and unscoped both absent): the flight is
dropped. -/
theorem detectAfterPriceGate_no_median {cfg : ScannerConfig}
    {db : List PriceRow} {f : Flight} (h : usual_price_of db f = none) :
    detectAfterPriceGate cfg db f = none := by
  simp [detectAfterPriceGate, h]

/-- With enough observations and a resolved usual price, the loop computes
`discountPct = (1 - price/usual) * 100` and emits the Deal exactly when it
reaches `discountThreshold * 100`. -/
theorem detectAfterPriceGate_median {cfg : ScannerConfig} {db : List PriceRow}
    {f : Flight} {m : ℚ}
    (hobs : ¬ get_observations_count db f.origin f.destination
      (some f.departure_date.month) (some f.departure_date.year)
        < cfg.min_observations)
    (hmed : usual_price_of db f = some m) :
    detectAfterPriceGate cfg db f =
      if cfg.discount_threshold * 100 ≤ (1 - f.price / m) * 100 then
        some { flight := f
               usual_price := m
               discount_percentage := (1 - f.price / m) * 100
               observations_count := get_observations_count db f.origin
                 f.destination (some f.departure_date.month)
                 (some f.departure_date.year) }
      else none := by
  simp [detectAfterPriceGate, hobs, hmed]

/-- C8: `Flight.to_hash` is a stable, deterministic function of exactly the
six fields `(origin, destination, departure_date, return_date | "oneway",
price, airline)`: flights agreeing on those six fields share a fingerprint
whatever their remaining fields, and flights differing in price, or in
airline, have distinct fingerprints. -/
theorem C8_to_hash_exactly_six_fields :
    (∀ f g : Flight, f.origin = g.origin → f.destination = g.destination →
      f.departure_date = g.departure_date → f.return_date = g.return_date →
      f.price = g.price → f.airline = g.airline → f.to_hash = g.to_hash)
    ∧ (∀ f g : Flight, f.price ≠ g.price → f.to_hash ≠ g.to_hash)
    ∧ (∀ f g : Flight, f.airline ≠ g.airline → f.to_hash ≠ g.to_hash) := by
  refine ⟨?_, ?_, ?_⟩
  · intro f g h1 h2 h3 h4 h5 h6
    simp [Flight.to_hash, h1, h2, h3, h4, h5, h6]
  · intro f g hne heq
    exact hne (congrArg FlightKey.price heq)
  · intro f g hne heq
    exact hne (congrArg FlightKey.airline heq)

/-- Witness for C8 at concrete flights: `flightB` changes only non-key fields
of `flightA`; `flightC` changes the price; `flightD` the airline. -/
theorem C8_to_hash_exactly_six_fields_witness :
    flightA.to_hash = flightB.to_hash
    ∧ flightA.to_hash ≠ flightC.to_hash
    ∧ flightA.to_hash ≠ flightD.to_hash :=
  ⟨C8_to_hash_exactly_six_fields.1 flightA flightB rfl rfl rfl rfl rfl rfl,
   C8_to_hash_exactly_six_fields.2.1 flightA flightC (by decide),
   C8_to_hash_exactly_six_fields.2.2 flightA flightD (by decide)⟩

/-- C4: recording twice under the same uniqueness key
`(origin, destination, departure_date, price, airline)` is a no-op — the
second `store_price` leaves any ledger unchanged — and from an empty ledger
the two calls leave exactly one matching row, so the observation count for
the route is `1`. -/
theorem C4_store_price_idempotent (db : List PriceRow) (f g : Flight)
    (hkey : sameKey (rowOfFlight f) (rowOfFlight g) = true) :
    store_price (store_price db f) g = store_price db f
    ∧ ((store_price (store_price [] f) g).filter
        (fun r => sameKey r (rowOfFlight f))).length = 1
    ∧ get_observations_count (store_price (store_price [] f) g)
        f.origin f.destination none none = 1 := by
  have hfirst : store_price (store_price db f) g = store_price db f := by
    unfold store_price
    by_cases hdb : db.any (fun r => sameKey r (rowOfFlight f)) = true
    · have hdbg : db.any (fun r => sameKey r (rowOfFlight g)) = true := by
        rw [List.any_eq_true] at hdb ⊢
        obtain ⟨r, hr, hk⟩ := hdb
        exact ⟨r, hr, sameKey_trans hk hkey⟩
      simp [hdb, hdbg]
    · have happ : (db ++ [rowOfFlight f]).any
          (fun r => sameKey r (rowOfFlight g)) = true := by
        rw [List.any_eq_true]
        exact ⟨rowOfFlight f, by simp, hkey⟩
      simp [hdb, happ]
  have hone : store_price (store_price [] f) g = [rowOfFlight f] := by
    have hempty : store_price [] f = [rowOfFlight f] := by
      simp [store_price]
    rw [hempty]
    unfold store_price
    simp [hkey]
  refine ⟨hfirst, ?_, ?_⟩
  · rw [hone]
    simp [sameKey_refl]
  · rw [hone]
    simp [get_observations_count, rowMatches, rowOfFlight]

/-- Witness for C4: storing the same CDG→NYC flight twice from an empty
ledger. -/
theorem C4_store_price_idempotent_witness :
    store_price (store_price [] flightA) flightA = store_price [] flightA
    ∧ ((store_price (store_price [] flightA) flightA).filter
        (fun r => sameKey r (rowOfFlight flightA))).length = 1
    ∧ get_observations_count (store_price (store_price [] flightA) flightA)
        flightA.origin flightA.destination none none = 1 :=
  C4_store_price_idempotent [] flightA flightA (by decide)

/-- Five prices 100..500 on one route in June 2024. -/
def dbOdd : List PriceRow :=
  ([100, 200, 300, 400, 500] : List ℚ).map fun p =>
    fixtureRow "CDG" "NYC" dJun p "AF"

/-- Four prices 100..400 on one route in June 2024. -/
def dbEven : List PriceRow :=
  ([100, 200, 300, 400] : List ℚ).map fun p =>
    fixtureRow "CDG" "NYC" dJun p "AF"

/-- C3: for every route and optional month/year scope, `get_median_price` is
`None` exactly when no row matches, and otherwise equals the middle element of
the matching prices sorted ascending for an odd count, and the mean of the two
central elements for an even count (stated against any sorted permutation of
the matching prices). -/
theorem C3_get_median_price (db : List PriceRow) (o d : String)
    (month year : Option Nat) :
    (get_median_price db o d month year = none ↔
      db.filter (rowMatches o d month year) = [])
    ∧ ∀ l : List ℚ,
        l.Perm ((db.filter (rowMatches o d month year)).map (·.price)) →
        l.Sorted (· ≤ ·) → l ≠ [] →
        get_median_price db o d month year =
          some (if l.length % 2 = 0
            then (l.getD (l.length / 2 - 1) 0 + l.getD (l.length / 2) 0) / 2
            else l.getD (l.length / 2) 0) :=
  ⟨get_median_price_none_iff db o d month year,
   fun l hperm hsort hne =>
     get_median_price_eq_of_sorted db o d month year l hperm hsort hne⟩

/-- Witness for C3: prices {100,200,300,400,500} give median 300, and
{100,200,300,400} give median 250. -/
theorem C3_get_median_price_witness :
    get_median_price dbOdd "CDG" "NYC" (some 6) (some 2024) = some 300
    ∧ get_median_price dbEven "CDG" "NYC" none none = some 250 := by
  constructor
  · have h := (C3_get_median_price dbOdd "CDG" "NYC" (some 6) (some 2024)).2
      [100, 200, 300, 400, 500] (by decide) (by decide) (by decide)
    exact h.trans (by decide)
  · have h := (C3_get_median_price dbEven "CDG" "NYC" none none).2
      [100, 200, 300, 400] (by decide) (by decide) (by decide)
    exact h.trans (by norm_num)

/-- Configuration used by the detector fixtures: defaults
(`max_price = 200`, `discount_threshold = 1/2`) with `min_observations = 5`. -/
def cfgNyc : ScannerConfig := { min_observations := 5 }

/-- Nine CDG→NYC observations at 200€ in June 2024. -/
def dbNyc : List PriceRow := historyAt "CDG" "NYC" dJun 200 9

/-- The nine matching prices of `dbNyc`, sorted. -/
def nine200 : List ℚ := [200, 200, 200, 200, 200, 200, 200, 200, 200]

/-- The scoped median of `dbNyc` is 200€. -/
theorem dbNyc_scoped_median :
    get_median_price dbNyc "CDG" "NYC" (some 6) (some 2024) = some 200 :=
  (get_median_price_eq_of_sorted dbNyc "CDG" "NYC" (some 6) (some 2024)
    nine200 (by decide) (by decide) (by decide)).trans (by decide)

/-- C5: for a candidate round-trip observation that passed the price gate and
the observation-count gate and whose median resolved to `m` (nonzero, so the
division is defined), the detector computes
`discountPct = (1 - price/m) * 100` and emits the Deal exactly when
`discountPct ≥ discountThreshold * 100`. -/
theorem C5_discount_threshold (cfg : ScannerConfig) (db : List PriceRow)
    (f : Flight) (m : ℚ)
    (hrt : f.is_round_trip = true)
    (hgate : (decide (f.destination ∈ cfg.asia_destinations) && f.has_stopover)
        = true
      ∨ f.price ≤ cfg.max_price)
    (hobs : cfg.min_observations ≤ get_observations_count db f.origin
      f.destination (some f.departure_date.month) (some f.departure_date.year))
    (hmed : usual_price_of db f = some m)
    (hm : m ≠ 0) :
    detectOne cfg db f =
      if cfg.discount_threshold * 100 ≤ (1 - f.price / m) * 100 then
        some { flight := f
               usual_price := m
               discount_percentage := (1 - f.price / m) * 100
               observations_count := get_observations_count db f.origin
                 f.destination (some f.departure_date.month)
                 (some f.departure_date.year) }
      else none := by
  rw [detectOne_pass_gate hrt (hgate.imp id not_lt.mpr)]
  exact detectAfterPriceGate_median (not_lt.mpr hobs) hmed

/-- Witness for C5 at the spec's boundary: median 200 and threshold 0.5 —
price 100 (discount exactly 50%) is emitted, price 101 (discount 49.5%) is
not. -/
theorem C5_discount_threshold_witness :
    detectOne cfgNyc dbNyc (rtNyc 100) =
      some { flight := rtNyc 100
             usual_price := 200
             discount_percentage := 50
             observations_count := 9 }
    ∧ detectOne cfgNyc dbNyc (rtNyc 101) = none := by
  have hmed100 : usual_price_of dbNyc (rtNyc 100) = some 200 :=
    usual_price_of_scoped dbNyc (rtNyc 100) 200 dbNyc_scoped_median
  have hmed101 : usual_price_of dbNyc (rtNyc 101) = some 200 :=
    usual_price_of_scoped dbNyc (rtNyc 101) 200 dbNyc_scoped_median
  constructor
  · have h := C5_discount_threshold cfgNyc dbNyc (rtNyc 100) 200 (by decide)
      (Or.inr (by decide)) (by decide) hmed100 (by decide)
    rw [h, if_pos (by norm_num [cfgNyc, rtNyc])]
    simp only [Option.some.injEq, Deal.mk.injEq]
    refine ⟨trivial, trivial, by norm_num [rtNyc], by decide⟩
  · have h := C5_discount_threshold cfgNyc dbNyc (rtNyc 101) 200 (by decide)
      (Or.inr (by decide)) (by decide) hmed101 (by decide)
    rw [h, if_neg (by norm_num [cfgNyc, rtNyc])]


/-- Configuration whose exempt long-haul set is {BKK}, with
`max_price = 200`. -/
def cfgBkk : ScannerConfig :=
  { min_observations := 5, asia_destinations := ["BKK"] }

/-- Nine CDG→BKK observations at 1000€ in June 2024. -/
def dbBkk : List PriceRow := historyAt "CDG" "BKK" dJun 1000 9

/-- The nine matching prices of `dbBkk`, sorted. -/
def nine1000 : List ℚ :=
  [1000, 1000, 1000, 1000, 1000, 1000, 1000, 1000, 1000]

/-- The scoped median of `dbBkk` is 1000€. -/
theorem dbBkk_scoped_median :
    get_median_price dbBkk "CDG" "BKK" (some 6) (some 2024) = some 1000 :=
  (get_median_price_eq_of_sorted dbBkk "CDG" "BKK" (some 6) (some 2024)
    nine1000 (by decide) (by decide) (by decide)).trans (by decide)

/-- A CDG→BKK round trip at 350€ with a stopover. -/
def fBkkStop : Flight :=
  { origin := "CDG"
    destination := "BKK"
    departure_date := dJun
    price := 350
    airline := "AF"
    return_date := some dJunRet
    has_stopover := true }

/-- The same 350€ CDG→BKK round trip without a stopover. -/
def fBkkDirect : Flight := { fBkkStop with has_stopover := false }

/-- C2: in the `detect_deals` loop, a round-trip observation priced above
`maxPrice` is skipped at the price gate exactly when it is not exempt
(`destination ∈ exempt set ∧ hasStopover`); when exempt, the loop proceeds to
the history gates untouched by the price cap. -/
theorem C2_price_cap_exemption (cfg : ScannerConfig) (db : List PriceRow)
    (f : Flight)
    (hrt : f.is_round_trip = true)
    (hp : cfg.max_price < f.price) :
    ((decide (f.destination ∈ cfg.asia_destinations) && f.has_stopover) = false →
      detectOne cfg db f = none)
    ∧ ((decide (f.destination ∈ cfg.asia_destinations) && f.has_stopover) = true →
      detectOne cfg db f = detectAfterPriceGate cfg db f) :=
  ⟨fun hex => detectOne_price_gate hex hp,
   fun hex => detectOne_pass_gate hrt (Or.inl hex)⟩

/-- Witness for C2, the spec's own instance: an exempt BKK fare at 350€
(cap 200€) is still emitted as a deal given discount and observation counts;
the same fare without a stopover is skipped. -/
theorem C2_price_cap_exemption_witness :
    detectOne cfgBkk dbBkk fBkkStop =
      some { flight := fBkkStop
             usual_price := 1000
             discount_percentage := 65
             observations_count := 9 }
    ∧ detectOne cfgBkk dbBkk fBkkDirect = none := by
  constructor
  · have h := (C2_price_cap_exemption cfgBkk dbBkk fBkkStop (by decide)
      (by decide)).2 (by decide)
    rw [h, detectAfterPriceGate_median (by decide)
      (usual_price_of_scoped dbBkk fBkkStop 1000 dbBkk_scoped_median)]
    rw [if_pos (by norm_num [cfgBkk, fBkkStop])]
    simp only [Option.some.injEq, Deal.mk.injEq]
    refine ⟨trivial, trivial, by norm_num [fBkkStop], by decide⟩
  · exact (C2_price_cap_exemption cfgBkk dbBkk fBkkDirect (by decide)
      (by decide)).1 (by decide)


/-- Three CDG→NYC observations at 300€ in July 2024 (no June rows). -/
def dbJul : List PriceRow := historyAt "CDG" "NYC" dJul 300 3

/-- C6: the detector's `usual_price` lookup takes the month/year-scoped
median when it resolves, falls back to the unscoped whole-route median when
the scoped query is `None`, and the history gates drop the observation only
when both are absent; the store itself answers a scoped query only from rows
matching the scope — it never widens the query. -/
theorem C6_median_fallback (cfg : ScannerConfig) (db : List PriceRow)
    (f : Flight) :
    (∀ v : ℚ, get_median_price db f.origin f.destination
        (some f.departure_date.month) (some f.departure_date.year) = some v →
      usual_price_of db f = some v)
    ∧ (get_median_price db f.origin f.destination
        (some f.departure_date.month) (some f.departure_date.year) = none →
      usual_price_of db f =
        get_median_price db f.origin f.destination none none)
    ∧ (usual_price_of db f = none → detectAfterPriceGate cfg db f = none)
    ∧ ∀ o d : String, ∀ m y : Nat,
        db.filter (rowMatches o d (some m) (some y)) = [] →
        get_median_price db o d (some m) (some y) = none :=
  ⟨fun v h => usual_price_of_scoped db f v h,
   fun h => usual_price_of_unscoped db f h,
   fun h => detectAfterPriceGate_no_median h,
   fun o d m y h => (get_median_price_none_iff db o d (some m) (some y)).mpr h⟩

/-- Witness for C6: a ledger holding only July rows answers `None` to the
June-scoped median, the June flight falls back to the whole-route median, an
empty ledger drops the flight, and a resolving scoped median is used as is. -/
theorem C6_median_fallback_witness :
    get_median_price dbJul "CDG" "NYC" (some 6) (some 2024) = none
    ∧ usual_price_of dbJul (rtNyc 100) =
        get_median_price dbJul "CDG" "NYC" none none
    ∧ detectAfterPriceGate cfgNyc [] (rtNyc 100) = none
    ∧ usual_price_of dbNyc (rtNyc 100) = some 200 := by
  have h := C6_median_fallback cfgNyc dbJul (rtNyc 100)
  have hscope : get_median_price dbJul "CDG" "NYC" (some 6) (some 2024) = none :=
    h.2.2.2 "CDG" "NYC" 6 2024 (by decide)
  refine ⟨hscope, h.2.1 hscope, ?_, ?_⟩
  · exact (C6_median_fallback cfgNyc ([] : List PriceRow) (rtNyc 100)).2.2.1
      (by decide)
  · exact (C6_median_fallback cfgNyc dbNyc (rtNyc 100)).1 200 dbNyc_scoped_median


/-- Inversion for an emitted deal: it came from a round-trip flight that
passed the price gate, the observation-count gate, and the discount
threshold, with the stated usual price and discount. -/
theorem detectOne_some_inv {cfg : ScannerConfig} {db : List PriceRow}
    {f : Flight} {d : Deal} (h : detectOne cfg db f = some d) :
    f.is_round_trip = true
    ∧ ((decide (f.destination ∈ cfg.asia_destinations) && f.has_stopover)
        = true ∨ ¬ cfg.max_price < f.price)
    ∧ ∃ m : ℚ, usual_price_of db f = some m
        ∧ d = { flight := f
                usual_price := m
                discount_percentage := (1 - f.price / m) * 100
                observations_count := get_observations_count db f.origin
                  f.destination (some f.departure_date.month)
                  (some f.departure_date.year) }
        ∧ cfg.discount_threshold * 100 ≤ (1 - f.price / m) * 100
        ∧ cfg.min_observations ≤ get_observations_count db f.origin
            f.destination (some f.departure_date.month)
            (some f.departure_date.year) := by
  by_cases hrt : f.is_round_trip
  case neg =>
    rw [Bool.not_eq_true] at hrt
    rw [detectOne_not_round_trip hrt] at h
    exact Option.noConfusion h
  case pos =>
    refine ⟨hrt, ?_⟩
    by_cases hc : (!(decide (f.destination ∈ cfg.asia_destinations) &&
        f.has_stopover) && decide (cfg.max_price < f.price)) = true
    · exfalso
      unfold detectOne at h
      rw [hrt] at h
      simp only [Bool.not_true, Bool.false_eq_true, if_false, hc, if_true] at h
      exact Option.noConfusion h
    · have hgate : (decide (f.destination ∈ cfg.asia_destinations) &&
          f.has_stopover) = true ∨ ¬ cfg.max_price < f.price := by
        rcases hex : (decide (f.destination ∈ cfg.asia_destinations) &&
            f.has_stopover) with _ | _
        · right
          intro hp
          exact hc (by simp [hex, hp])
        · left
          rfl
      refine ⟨hgate, ?_⟩
      rw [detectOne_pass_gate hrt hgate] at h
      by_cases hobs : get_observations_count db f.origin f.destination
          (some f.departure_date.month) (some f.departure_date.year)
            < cfg.min_observations
      · rw [detectAfterPriceGate_low_obs hobs] at h
        exact Option.noConfusion h
      · rcases hup : usual_price_of db f with _ | m
        · rw [detectAfterPriceGate_no_median hup] at h
          exact Option.noConfusion h
        · rw [detectAfterPriceGate_median hobs hup] at h
          by_cases hth : cfg.discount_threshold * 100 ≤ (1 - f.price / m) * 100
          · rw [if_pos hth] at h
            exact ⟨m, rfl, (Option.some.inj h).symm, hth, Nat.not_lt.mp hobs⟩
          · rw [if_neg hth] at h
            exact Option.noConfusion h


/-- C1 (amended): `Deal.make` yields a value exactly when the
`__post_init__` assertions (discount ≥ 50, and price ≤ 200 unless the
destination is in the hardcoded Asia set with a stopover) hold; and for every
configuration whose `discountThreshold` is at least 0.5, whose `maxPrice` is
at most 200€, and whose exempt set is contained in the hardcoded Asia set,
every Deal emitted by `detect_deals` satisfies the §3 invariants
(`discountPct ≥ discountThreshold*100`, and `price ≤ maxPrice` unless
exempt) and re-validates without triggering the fail-fast. -/
theorem C1_deal_invariants (cfg : ScannerConfig) (db : List PriceRow)
    (flights : List Flight)
    (hthr : 1/2 ≤ cfg.discount_threshold)
    (hmax : cfg.max_price ≤ 200)
    (hsub : ∀ s ∈ cfg.asia_destinations, s ∈ asia_codes) :
    (∀ (fl : Flight) (up dp : ℚ) (oc : Nat),
      (∃ d : Deal, Deal.make fl up dp oc = some d) ↔
        Deal.post_init_ok
          { flight := fl, usual_price := up, discount_percentage := dp,
            observations_count := oc } = true)
    ∧ ∀ d ∈ detect_deals cfg db flights,
        cfg.discount_threshold * 100 ≤ d.discount_percentage
        ∧ ((decide (d.flight.destination ∈ cfg.asia_destinations) &&
              d.flight.has_stopover) = true ∨ d.flight.price ≤ cfg.max_price)
        ∧ d.post_init_ok = true
        ∧ Deal.make d.flight d.usual_price d.discount_percentage
            d.observations_count = some d := by
  constructor
  · intro fl up dp oc
    constructor
    · rintro ⟨d, hd⟩
      by_cases hpost : Deal.post_init_ok
          { flight := fl, usual_price := up, discount_percentage := dp,
            observations_count := oc } = true
      · exact hpost
      · exfalso
        simp only [Deal.make, hpost, Bool.false_eq_true, if_false] at hd
        exact Option.noConfusion hd
    · intro hpost
      have hd0 : Deal.make fl up dp oc = some
          { flight := fl, usual_price := up, discount_percentage := dp,
            observations_count := oc } := by
        simp only [Deal.make, hpost, if_true]
      exact ⟨_, hd0⟩
  · intro d hd
    simp only [detect_deals, List.mem_filterMap] at hd
    obtain ⟨f, hf, hdet⟩ := hd
    obtain ⟨hrt, hgate, m, hup, hdeq, hth, hobs⟩ := detectOne_some_inv hdet
    subst hdeq
    have h50 : (50 : ℚ) ≤ (1 - f.price / m) * 100 := by
      have h1 : (50 : ℚ) ≤ cfg.discount_threshold * 100 := by
        have := mul_le_mul_of_nonneg_right hthr (by norm_num : (0:ℚ) ≤ 100)
        linarith
      exact h1.trans hth
    have hprice : (f.destination ∈ asia_codes ∧ f.has_stopover = true)
        ∨ f.price ≤ 200 := by
      rcases hgate with hex | hle
      · rw [Bool.and_eq_true, decide_eq_true_eq] at hex
        exact Or.inl ⟨hsub _ hex.1, hex.2⟩
      · exact Or.inr ((not_lt.mp hle).trans hmax)
    refine ⟨hth, hgate.imp id not_lt.mp, ?_, ?_⟩
    · simp only [Deal.post_init_ok, Deal.is_asia_destination, Bool.and_eq_true,
        Bool.or_eq_true, decide_eq_true_eq]
      exact ⟨h50, hprice.imp (fun hx => ⟨hx.1, hx.2⟩) id⟩
    · have hpost : Deal.post_init_ok
          { flight := f
            usual_price := m
            discount_percentage := (1 - f.price / m) * 100
            observations_count := get_observations_count db f.origin
              f.destination (some f.departure_date.month)
              (some f.departure_date.year) } = true := by
        simp only [Deal.post_init_ok, Deal.is_asia_destination,
          Bool.and_eq_true, Bool.or_eq_true, decide_eq_true_eq]
        exact ⟨h50, hprice.imp (fun hx => ⟨hx.1, hx.2⟩) id⟩
      simp only [Deal.make, hpost, if_true]


/-- A configuration with a 40% discount threshold — legal per the
configuration surface, but below the hardcoded 50% of `Deal.__post_init__`. -/
def cfgBad : ScannerConfig :=
  { discount_threshold := 2/5, min_observations := 1 }

/-- A single CDG→NYC observation at 200€ in June 2024. -/
def dbBad : List PriceRow := [fixtureRow "CDG" "NYC" dJun 200 "AF"]

/-- The deal the detector emits under `cfgBad` for a 110€ flight against a
200€ median: 45% discount — which violates the `Deal` assertions. -/
def dealBad : Deal :=
  { flight := rtNyc 110
    usual_price := 200
    discount_percentage := 45
    observations_count := 1 }

/-- Counterexample to C1 as stated: under `cfgBad` (`discountThreshold =
0.4`), `detect_deals` reaches the Deal constructor with a 45% discount, and
re-validation fails — in the Python code `Deal.__post_init__` raises its
`AssertionError`, so the fail-fast IS triggered from ordinary detector flow
for this configuration. -/
theorem C1_counterexample :
    detect_deals cfgBad dbBad [rtNyc 110] = [dealBad]
    ∧ dealBad.post_init_ok = false
    ∧ Deal.make (rtNyc 110) 200 45 1 = none := by
  have hmed : get_median_price dbBad "CDG" "NYC" (some 6) (some 2024) =
      some 200 :=
    (get_median_price_eq_of_sorted dbBad "CDG" "NYC" (some 6) (some 2024)
      [200] (by decide) (by decide) (by decide)).trans (by decide)
  have hdet : detectOne cfgBad dbBad (rtNyc 110) = some dealBad := by
    rw [detectOne_pass_gate (by decide) (Or.inr (by decide)),
      detectAfterPriceGate_median (by decide)
        (usual_price_of_scoped dbBad (rtNyc 110) 200 hmed),
      if_pos (by norm_num [cfgBad, rtNyc])]
    simp only [dealBad, Option.some.injEq, Deal.mk.injEq]
    refine ⟨trivial, trivial, by norm_num [rtNyc], by decide⟩
  refine ⟨?_, by decide, by decide⟩
  simp [detect_deals, hdet]

/-- The deal emitted under the default thresholds for a 100€ flight against
a 200€ median. -/
def dealGood : Deal :=
  { flight := rtNyc 100
    usual_price := 200
    discount_percentage := 50
    observations_count := 9 }

/-- Witness for C1 (amended) under the default thresholds: the emitted deal
re-validates successfully. -/
theorem C1_deal_invariants_witness :
    (1/2 ≤ cfgNyc.discount_threshold ∧ cfgNyc.max_price ≤ 200
      ∧ ∀ s ∈ cfgNyc.asia_destinations, s ∈ asia_codes)
    ∧ dealGood ∈ detect_deals cfgNyc dbNyc [rtNyc 100]
    ∧ dealGood.post_init_ok = true
    ∧ Deal.make dealGood.flight dealGood.usual_price
        dealGood.discount_percentage dealGood.observations_count =
          some dealGood := by
  have hdet : detectOne cfgNyc dbNyc (rtNyc 100) = some dealGood := by
    rw [detectOne_pass_gate (by decide) (Or.inr (by decide)),
      detectAfterPriceGate_median (by decide)
        (usual_price_of_scoped dbNyc (rtNyc 100) 200 dbNyc_scoped_median),
      if_pos (by norm_num [cfgNyc, rtNyc])]
    simp only [dealGood, Option.some.injEq, Deal.mk.injEq]
    refine ⟨trivial, trivial, by norm_num [rtNyc], by decide⟩
  have hmem : dealGood ∈ detect_deals cfgNyc dbNyc [rtNyc 100] := by
    simp [detect_deals, hdet]
  have h := (C1_deal_invariants cfgNyc dbNyc [rtNyc 100]
    (by norm_num [cfgNyc]) (by norm_num [cfgNyc]) (by decide)).2 dealGood hmem
  exact ⟨⟨by norm_num [cfgNyc], by norm_num [cfgNyc], by decide⟩, hmem,
    h.2.2.1, h.2.2.2⟩



/-- After `mark_deal_as_notified`, the fingerprint reads as notified. -/
theorem is_deal_notified_mark (t : List NotifiedRow) (f : Flight)
    (up dp : ℚ) :
    is_deal_notified (Except.ok (mark_deal_as_notified t f up dp))
      f.to_hash = true := by
  simp [is_deal_notified, mark_deal_as_notified]

/-- C7: per detected deal, the `scan_cycle` notification loop skips
(leaving the table unchanged) when the fingerprint is already recorded;
otherwise it invokes the notifier, and the `NotifiedDealRecord` is written
if and only if the send reported success — a failed send leaves the dedup
table unchanged, so the deal stays eligible for a later cycle. -/
theorem C7_notify_dedup (send : Deal → Bool) (table : List NotifiedRow)
    (deal : Deal) :
    (is_deal_notified (Except.ok table) deal.flight.to_hash = true →
      scanCycleNotifyStep (Except.ok table) send table deal = (table, false))
    ∧ (is_deal_notified (Except.ok table) deal.flight.to_hash = false →
        send deal = true →
      scanCycleNotifyStep (Except.ok table) send table deal =
        (mark_deal_as_notified table deal.flight deal.usual_price
          deal.discount_percentage, true))
    ∧ (is_deal_notified (Except.ok table) deal.flight.to_hash = false →
        send deal = false →
      scanCycleNotifyStep (Except.ok table) send table deal = (table, false))
    ∧ (is_deal_notified (Except.ok table) deal.flight.to_hash = false →
      is_deal_notified
        (Except.ok (scanCycleNotifyStep (Except.ok table) send table deal).1)
        deal.flight.to_hash = send deal) := by
  refine ⟨?_, ?_, ?_, ?_⟩
  · intro h
    simp [scanCycleNotifyStep, h]
  · intro h hs
    simp [scanCycleNotifyStep, h, hs]
  · intro h hs
    simp [scanCycleNotifyStep, h, hs]
  · intro h
    cases hs : send deal
    · simp [scanCycleNotifyStep, h, hs]
    · simp [scanCycleNotifyStep, h, hs, is_deal_notified_mark]

/-- A `notified_deals` table already holding `dealGood`. -/
def tableW : List NotifiedRow :=
  mark_deal_as_notified [] dealGood.flight dealGood.usual_price
    dealGood.discount_percentage

/-- Witness for C7: successful send writes the record, failed send leaves
the empty table, and a recorded fingerprint is skipped. -/
theorem C7_notify_dedup_witness :
    scanCycleNotifyStep (Except.ok []) (fun _ => true) [] dealGood =
      (mark_deal_as_notified [] dealGood.flight dealGood.usual_price
        dealGood.discount_percentage, true)
    ∧ scanCycleNotifyStep (Except.ok []) (fun _ => false) [] dealGood =
        ([], false)
    ∧ scanCycleNotifyStep (Except.ok tableW) (fun _ => true) tableW dealGood =
        (tableW, false)
    ∧ is_deal_notified (Except.ok tableW) dealGood.flight.to_hash = true := by
  refine ⟨?_, ?_, ?_, by decide⟩
  · exact (C7_notify_dedup (fun _ => true) [] dealGood).2.1 (by decide) rfl
  · exact (C7_notify_dedup (fun _ => false) [] dealGood).2.2.1 (by decide) rfl
  · exact (C7_notify_dedup (fun _ => true) tableW dealGood).1 (by decide)

/-- C10: `is_deal_notified` swallows a raising read and returns `False`, so
under a storage read failure a fingerprint whose record exists is reported
not-notified and the orchestrator proceeds to send again — at-most-once
notification holds only when dedup reads succeed. -/
theorem C10_read_failure_resends (e : String) (send : Deal → Bool)
    (table : List NotifiedRow) (deal : Deal)
    (hmem : is_deal_notified (Except.ok table) deal.flight.to_hash = true) :
    is_deal_notified (Except.error e) deal.flight.to_hash = false
    ∧ (scanCycleNotifyStep (Except.error e) send table deal).2 = send deal := by
  refine ⟨rfl, ?_⟩
  cases hs : send deal
  · simp [scanCycleNotifyStep, is_deal_notified, hs]
  · simp [scanCycleNotifyStep, is_deal_notified, hs]

/-- Witness for C10: with the record present but the read failing, the
notification is sent again. -/
theorem C10_read_failure_resends_witness :
    is_deal_notified (Except.error "db read failed")
      dealGood.flight.to_hash = false
    ∧ (scanCycleNotifyStep (Except.error "db read failed") (fun _ => true)
        tableW dealGood).2 = true :=
  C10_read_failure_resends "db read failed" (fun _ => true) tableW dealGood
    (by decide)



/-- Every element of `pyRangeAux` lies on the arithmetic progression and
below `stop`. -/
theorem pyRangeAux_sound (fuel a stop step x : Nat)
    (h : x ∈ pyRangeAux fuel a stop step) :
    ∃ j, x = a + j * step ∧ x < stop := by
  induction fuel generalizing a with
  | zero => simp [pyRangeAux] at h
  | succ n ih =>
    unfold pyRangeAux at h
    by_cases hlt : a < stop
    · rw [if_pos hlt] at h
      rcases List.mem_cons.mp h with rfl | h2
      · exact ⟨0, by omega, hlt⟩
      · obtain ⟨j, hj, hs⟩ := ih (a + step) h2
        refine ⟨j + 1, ?_, hs⟩
        rw [Nat.succ_mul]
        omega
    · rw [if_neg hlt] at h
      simp at h

/-- With a positive step and enough fuel, every progression element below
`stop` is produced. -/
theorem pyRangeAux_complete (fuel a stop step : Nat) (hstep : 1 ≤ step)
    (hfuel : stop - a ≤ fuel) (j : Nat) (hj : a + j * step < stop) :
    a + j * step ∈ pyRangeAux fuel a stop step := by
  induction fuel generalizing a j with
  | zero => omega
  | succ n ih =>
    have hlt : a < stop := by omega
    unfold pyRangeAux
    rw [if_pos hlt]
    cases j with
    | zero =>
      simp
    | succ kk =>
      apply List.mem_cons_of_mem
      have h2 : (a + step) + kk * step < stop := by
        rw [Nat.succ_mul] at hj
        omega
      have h3 := ih (a + step) (by omega) kk h2
      have e1 : a + (kk + 1) * step = a + step + kk * step := by
        rw [Nat.succ_mul]
        omega
      rw [e1]
      exact h3

/-- Every emitted pair departs on the departure progression within the
horizon, and returns after a generated stay, within the horizon. -/
theorem datePairsAux_sound (cfg : ScannerConfig) (maxD fuel cur : Nat)
    (p : Nat × Nat) (hp : p ∈ datePairsAux cfg maxD fuel cur) :
    ∃ k, p.1 = cur + k * cfg.date_step_days
      ∧ p.1 ≤ maxD
      ∧ ∃ s ∈ pyRange cfg.min_stay_days (min (cfg.max_stay_days + 1) 15)
          cfg.stay_days_step, p.2 = p.1 + s ∧ p.2 ≤ maxD := by
  induction fuel generalizing cur with
  | zero => simp [datePairsAux] at hp
  | succ n ih =>
    unfold datePairsAux at hp
    by_cases hcur : cur ≤ maxD
    · rw [if_pos hcur] at hp
      rcases List.mem_append.mp hp with hin | hin
      · obtain ⟨s, hs, hsome⟩ := List.mem_filterMap.mp hin
        by_cases hret : cur + s ≤ maxD
        · rw [if_pos hret] at hsome
          cases Option.some.inj hsome
          exact ⟨0, by simp, hcur, s, hs, rfl, hret⟩
        · rw [if_neg hret] at hsome
          exact Option.noConfusion hsome
      · obtain ⟨k, hk1, hk2, s, hs, h2, h3⟩ := ih (cur + cfg.date_step_days) hin
        refine ⟨k + 1, ?_, hk2, s, hs, h2, h3⟩
        rw [Nat.succ_mul]
        omega
    · rw [if_neg hcur] at hp
      simp at hp

/-- With a positive departure step and enough fuel, every in-range
(departure, departure + stay) combination is emitted. -/
theorem datePairsAux_complete (cfg : ScannerConfig) (maxD fuel cur : Nat)
    (hfuel : maxD + 1 - cur ≤ fuel) (k s : Nat)
    (hs : s ∈ pyRange cfg.min_stay_days (min (cfg.max_stay_days + 1) 15)
      cfg.stay_days_step)
    (hds : 1 ≤ cfg.date_step_days)
    (hdep : cur + k * cfg.date_step_days ≤ maxD)
    (hret : cur + k * cfg.date_step_days + s ≤ maxD) :
    (cur + k * cfg.date_step_days, cur + k * cfg.date_step_days + s) ∈
      datePairsAux cfg maxD fuel cur := by
  induction fuel generalizing cur k with
  | zero => omega
  | succ n ih =>
    have hcur : cur ≤ maxD := by omega
    unfold datePairsAux
    rw [if_pos hcur]
    cases k with
    | zero =>
      apply List.mem_append_left
      apply List.mem_filterMap.mpr
      refine ⟨s, hs, ?_⟩
      simp only [Nat.zero_mul, Nat.add_zero] at hdep hret ⊢
      rw [if_pos hret]
    | succ kk =>
      apply List.mem_append_right
      have h2 : (cur + cfg.date_step_days) + kk * cfg.date_step_days ≤ maxD := by
        rw [Nat.succ_mul] at hdep
        omega
      have h3 : (cur + cfg.date_step_days) + kk * cfg.date_step_days + s
          ≤ maxD := by
        rw [Nat.succ_mul] at hret
        omega
      have h4 := ih (cur + cfg.date_step_days) (by omega) kk h2 h3
      have e1 : cur + (kk + 1) * cfg.date_step_days =
          cur + cfg.date_step_days + kk * cfg.date_step_days := by
        rw [Nat.succ_mul]
        omega
      rw [e1]
      exact h4


/-- C9 (amended): provided `minStayDays ≥ 1` and both steps are ≥ 1, the
generator enumerates exactly the pairs (departure, departure + stay) with
departure on `today+minDaysFromNow, +dateStep, …` not exceeding
`today+maxDaysFromNow`, stay on `minStayDays, +stayStep, …` not exceeding
`min(maxStayDays, 14)`, and return not exceeding `today+maxDaysFromNow`;
consequently every emitted pair satisfies `returnDate > departureDate` with
both dates in `[today+minDaysFromNow, today+maxDaysFromNow]`. -/
theorem C9_date_pairs (cfg : ScannerConfig) (today : Nat)
    (hmin : 1 ≤ cfg.min_stay_days)
    (hss : 1 ≤ cfg.stay_days_step)
    (hds : 1 ≤ cfg.date_step_days) :
    (∀ p ∈ generate_date_pairs cfg today,
      (∃ k, p.1 = today + cfg.min_days_from_now + k * cfg.date_step_days)
      ∧ (∃ j, p.2 - p.1 = cfg.min_stay_days + j * cfg.stay_days_step)
      ∧ cfg.min_stay_days ≤ p.2 - p.1
      ∧ p.2 - p.1 ≤ min cfg.max_stay_days 14
      ∧ today + cfg.min_days_from_now ≤ p.1
      ∧ p.1 ≤ today + cfg.max_days_from_now
      ∧ p.1 < p.2
      ∧ today + cfg.min_days_from_now ≤ p.2
      ∧ p.2 ≤ today + cfg.max_days_from_now)
    ∧ ∀ k j : Nat,
        today + cfg.min_days_from_now + k * cfg.date_step_days ≤
          today + cfg.max_days_from_now →
        cfg.min_stay_days + j * cfg.stay_days_step <
          min (cfg.max_stay_days + 1) 15 →
        today + cfg.min_days_from_now + k * cfg.date_step_days +
          (cfg.min_stay_days + j * cfg.stay_days_step) ≤
            today + cfg.max_days_from_now →
        (today + cfg.min_days_from_now + k * cfg.date_step_days,
          today + cfg.min_days_from_now + k * cfg.date_step_days +
            (cfg.min_stay_days + j * cfg.stay_days_step)) ∈
          generate_date_pairs cfg today := by
  constructor
  · intro p hp
    unfold generate_date_pairs at hp
    obtain ⟨k, hk, hdep, s, hs, hps, hret⟩ :=
      datePairsAux_sound cfg (today + cfg.max_days_from_now) _ _ p hp
    obtain ⟨j, hsj, hslt⟩ := pyRangeAux_sound _ _ _ _ _ hs
    refine ⟨⟨k, hk⟩, ⟨j, by omega⟩, by omega, by omega, by omega, hdep,
      by omega, by omega, hret⟩
  · intro k j h1 h2 h3
    unfold generate_date_pairs
    apply datePairsAux_complete cfg (today + cfg.max_days_from_now) _ _
      (by omega) k _ ?_ hds h1 h3
    unfold pyRange
    exact pyRangeAux_complete _ _ _ _ hss (by omega) j h2

/-- A configuration with `minStayDays = 0`, admissible on the configuration
surface. -/
def cfgStayZero : ScannerConfig :=
  { min_days_from_now := 1
    max_days_from_now := 3
    min_stay_days := 0
    max_stay_days := 2
    stay_days_step := 1
    date_step_days := 1 }

/-- Counterexample to C9 as stated: with `minStayDays = 0` the generator
emits a pair whose return date equals its departure date, violating the
claimed `returnDate > departureDate` invariant — so the invariant does not
hold for every configuration. -/
theorem C9_counterexample :
    ∃ p ∈ generate_date_pairs cfgStayZero 0, ¬ p.1 < p.2 := by decide

/-- A small, well-formed generator configuration. -/
def cfgGen : ScannerConfig :=
  { min_days_from_now := 1
    max_days_from_now := 10
    min_stay_days := 3
    max_stay_days := 30
    stay_days_step := 1
    date_step_days := 7 }

/-- Witness for C9 (amended) on a concrete configuration: all pairs are
strictly increasing within the horizon, and the first combination is
emitted. -/
theorem C9_date_pairs_witness :
    (∀ p ∈ generate_date_pairs cfgGen 0, 1 ≤ p.1 ∧ p.1 < p.2 ∧ p.2 ≤ 10)
    ∧ ((1 : Nat), (4 : Nat)) ∈ generate_date_pairs cfgGen 0 := by
  have h := C9_date_pairs cfgGen 0 (by decide) (by decide) (by decide)
  constructor
  · intro p hp
    obtain ⟨_, _, _, _, h5, h6, h7, h8, h9⟩ := h.1 p hp
    simp only [cfgGen] at h5 h9
    exact ⟨by omega, h7, by omega⟩
  · have h10 := h.2 0 0 (by decide) (by decide) (by decide)
    simpa [cfgGen] using h10


end FlightScanner
